import Mathlib

/-! Shallow embedding of the extended TinyDB storage layer
(`database_updated.py.py`, `middlewares_updated.py`): the transactional
memory and JSON storages with backup/restore, the caching middleware, and
the facade's schema validation.  Python dicts are modelled as association
lists, the filesystem as an association list from path to file content,
and JSON serialization as the identity on the `State` value universe. -/

/-- The JSON value universe of the persisted documents. -/
inductive JValue where
  | null : JValue
  | bool (b : Bool) : JValue
  | num (n : Int) : JValue
  | str (s : String) : JValue
  | arr (elems : List JValue) : JValue
  | obj (fields : List (String × JValue)) : JValue

/-- The whole persisted state: a mapping from table name to table content. -/
abbrev State := List (String × JValue)

/-- Association-list lookup, modelling Python dict indexing / `dict.get`. -/
def alistLookup {β : Type} : List (String × β) → String → Option β
  | [], _ => none
  | (q, c) :: rest, p => if q = p then some c else alistLookup rest p

/-- Association-list update, modelling Python dict assignment. -/
def alistSet {β : Type} : List (String × β) → String → β → List (String × β)
  | [], p, c => [(p, c)]
  | (q, c0) :: rest, p, c =>
      if q = p then (p, c) :: rest else (q, c0) :: alistSet rest p c

/-- Association-list removal, modelling Python `del` / `os.remove`. -/
def alistRemove {β : Type} : List (String × β) → String → List (String × β)
  | [], _ => []
  | (q, c) :: rest, p =>
      if q = p then alistRemove rest p else (q, c) :: alistRemove rest p

/-- A file either holds a serialized `State` or is empty/unparseable (`none`). -/
abbrev FileContent := Option State

/-- The filesystem: a mapping from path to file content; absent key means
the path does not exist. -/
abbrev Files := List (String × FileContent)

def lookupFile (fs : Files) (p : String) : Option FileContent := alistLookup fs p

def setFile (fs : Files) (p : String) (c : FileContent) : Files := alistSet fs p c

def removeFile (fs : Files) (p : String) : Files := alistRemove fs p

/-- `shutil.copyfile src dst`: fails (`none`) when the source is missing. -/
def copyfile (fs : Files) (src dst : String) : Option Files :=
  match lookupFile fs src with
  | none => none
  | some c => some (setFile fs dst c)

theorem alistLookup_set_self {β : Type} (fs : List (String × β)) (p : String) (c : β) :
    alistLookup (alistSet fs p c) p = some c := by
  induction fs with
  | nil => simp [alistLookup, alistSet]
  | cons hd tl ih =>
      obtain ⟨q, c0⟩ := hd
      by_cases hq : q = p
      · simp [alistLookup, alistSet, hq]
      · simp [alistLookup, alistSet, hq, ih]

theorem alistLookup_set_ne {β : Type} (fs : List (String × β)) (p r : String) (c : β)
    (h : p ≠ r) : alistLookup (alistSet fs p c) r = alistLookup fs r := by
  induction fs with
  | nil => simp [alistLookup, alistSet, h]
  | cons hd tl ih =>
      obtain ⟨q, c0⟩ := hd
      by_cases hq : q = p
      · subst hq
        simp [alistLookup, alistSet, h]
      · simp [alistLookup, alistSet, hq, ih]

theorem alistLookup_remove_ne {β : Type} (fs : List (String × β)) (p r : String)
    (h : p ≠ r) : alistLookup (alistRemove fs p) r = alistLookup fs r := by
  induction fs with
  | nil => simp [alistRemove]
  | cons hd tl ih =>
      obtain ⟨q, c0⟩ := hd
      by_cases hq : q = p
      · subst hq
        simp [alistLookup, alistRemove, h, ih]
      · simp [alistLookup, alistRemove, hq, ih]

theorem lookupFile_setFile_self (fs : Files) (p : String) (c : FileContent) :
    lookupFile (setFile fs p c) p = some c := alistLookup_set_self fs p c

theorem lookupFile_setFile_ne (fs : Files) (p r : String) (c : FileContent)
    (h : p ≠ r) : lookupFile (setFile fs p c) r = lookupFile fs r :=
  alistLookup_set_ne fs p r c h

theorem lookupFile_removeFile_ne (fs : Files) (p r : String) (h : p ≠ r) :
    lookupFile (removeFile fs p) r = lookupFile fs r :=
  alistLookup_remove_ne fs p r h

/-- `ExtendedMemoryStorage`: the in-memory backend (`memory`, initially
absent) extended with the transaction snapshot `_transaction_backup`. -/
structure ExtendedMemoryStorage where
  memory : Option State
  transaction_backup : Option State

/-- `MemoryStorage.read`: returns the stored state, `None` if never written. -/
def ExtendedMemoryStorage.read (s : ExtendedMemoryStorage) : Option State :=
  s.memory

/-- `MemoryStorage.write`: replaces the stored state. -/
def ExtendedMemoryStorage.write (d : State) (s : ExtendedMemoryStorage) :
    ExtendedMemoryStorage :=
  { s with memory := some d }

/-- `begin_transaction`: `data = self.read() or \x7b\x7d` (an absent or empty
state yields the empty mapping) then the snapshot is a copy of `data`. -/
def ExtendedMemoryStorage.begin_transaction (s : ExtendedMemoryStorage) :
    ExtendedMemoryStorage :=
  { s with transaction_backup := some (s.read.getD []) }

/-- `commit_transaction`: clears the snapshot, leaves the state untouched. -/
def ExtendedMemoryStorage.commit_transaction (s : ExtendedMemoryStorage) :
    ExtendedMemoryStorage :=
  { s with transaction_backup := none }

/-- `rollback_transaction`: if a snapshot is held, write it back and clear it. -/
def ExtendedMemoryStorage.rollback_transaction (s : ExtendedMemoryStorage) :
    ExtendedMemoryStorage :=
  match s.transaction_backup with
  | some b => { memory := some b, transaction_backup := none }
  | none => s

/-- `backup`: if the state is present, `json.dump` it to `backup_path`;
otherwise do nothing (no file is written, no error is raised). -/
def ExtendedMemoryStorage.backup (backup_path : String)
    (s : ExtendedMemoryStorage) (fs : Files) : Files :=
  match s.read with
  | some d => setFile fs backup_path (some d)
  | none => fs

/-- `restore`: if `backup_path` exists, `json.load` it and write the result;
a missing path is silently skipped; an unparseable file fails (`none`). -/
def ExtendedMemoryStorage.restore (backup_path : String)
    (s : ExtendedMemoryStorage) (fs : Files) : Option ExtendedMemoryStorage :=
  match lookupFile fs backup_path with
  | none => some s
  | some (some d) => some (s.write d)
  | some none => none

/-- A sequence of whole-state writes, as issued between transaction calls. -/
def ExtendedMemoryStorage.writeAll (ws : List State) (s : ExtendedMemoryStorage) :
    ExtendedMemoryStorage :=
  ws.foldl (fun acc d => acc.write d) s

theorem memory_writeAll_backup (ws : List State) (s : ExtendedMemoryStorage) :
    (ExtendedMemoryStorage.writeAll ws s).transaction_backup =
      s.transaction_backup := by
  induction ws generalizing s with
  | nil => rfl
  | cons d rest ih =>
      simpa [ExtendedMemoryStorage.writeAll, ExtendedMemoryStorage.write]
        using ih (s.write d)

/-- `ExtendedJSONStorage`: the file backend; the instance holds the primary
file path, the persisted data lives in the filesystem. -/
structure ExtendedJSONStorage where
  path : String

/-- `self._transaction_backup_path = path + '.bak'`. -/
def ExtendedJSONStorage.transaction_backup_path (st : ExtendedJSONStorage) :
    String :=
  st.path ++ ".bak"

/-- `JSONStorage.read`: parse the primary file; an empty file yields `None`. -/
def ExtendedJSONStorage.read (st : ExtendedJSONStorage) (fs : Files) :
    Option State :=
  match lookupFile fs st.path with
  | some c => c
  | none => none

/-- `JSONStorage.write`: serialize the state into the primary file. -/
def ExtendedJSONStorage.write (st : ExtendedJSONStorage) (d : State)
    (fs : Files) : Files :=
  setFile fs st.path (some d)

/-- `begin_transaction`: copy the primary file to the shadow path. -/
def ExtendedJSONStorage.begin_transaction (st : ExtendedJSONStorage)
    (fs : Files) : Option Files :=
  copyfile fs st.path st.transaction_backup_path

/-- `commit_transaction`: delete the shadow file if it exists. -/
def ExtendedJSONStorage.commit_transaction (st : ExtendedJSONStorage)
    (fs : Files) : Files :=
  if (lookupFile fs st.transaction_backup_path).isSome then
    removeFile fs st.transaction_backup_path
  else fs

/-- `rollback_transaction`: if the shadow file exists, copy it back over the
primary file and delete it. -/
def ExtendedJSONStorage.rollback_transaction (st : ExtendedJSONStorage)
    (fs : Files) : Files :=
  match lookupFile fs st.transaction_backup_path with
  | some c => removeFile (setFile fs st.path c) st.transaction_backup_path
  | none => fs

/-- `backup`: raw copy of the primary file to `backup_path`. -/
def ExtendedJSONStorage.backup (st : ExtendedJSONStorage)
    (backup_path : String) (fs : Files) : Option Files :=
  copyfile fs st.path backup_path

/-- `restore`: raw copy of `backup_path` over the primary file. -/
def ExtendedJSONStorage.restore (st : ExtendedJSONStorage)
    (backup_path : String) (fs : Files) : Option Files :=
  copyfile fs backup_path st.path

/-- A sequence of whole-state writes through the file backend. -/
def ExtendedJSONStorage.writeAll (st : ExtendedJSONStorage) (ws : List State)
    (fs : Files) : Files :=
  ws.foldl (fun acc d => st.write d acc) fs

theorem path_ne_transaction_backup_path (st : ExtendedJSONStorage) :
    st.path ≠ st.transaction_backup_path := by
  intro h
  have hl : st.path.length = (st.path ++ ".bak").length :=
    congrArg String.length h
  rw [String.length_append] at hl
  have hb : (".bak" : String).length = 4 := rfl
  rw [hb] at hl
  omega

theorem json_writeAll_lookup_ne (st : ExtendedJSONStorage) (ws : List State)
    (fs : Files) (r : String) (h : st.path ≠ r) :
    lookupFile (st.writeAll ws fs) r = lookupFile fs r := by
  induction ws generalizing fs with
  | nil => rfl
  | cons d rest ih =>
      rw [ExtendedJSONStorage.writeAll, List.foldl_cons]
      rw [show List.foldl (fun acc d => st.write d acc) (st.write d fs) rest =
            st.writeAll rest (st.write d fs) from rfl]
      rw [ih (st.write d fs)]
      exact lookupFile_setFile_ne fs st.path r (some d) h

/-- The duck-typed interface a `Middleware` requires of its wrapped storage:
`read`, `write`, `close`.  `write` takes the middleware's cache verbatim
(possibly `None`), as `MemoryStorage.write` stores any object as-is. -/
structure StorageOps (σ α : Type) where
  read : σ → Option α × σ
  write : Option α → σ → σ
  close : σ → σ

/-- `CachingMiddleware`: wrapped storage, cache buffer (initially `None`),
modification counter (initially 0) and the class constant
`WRITE_CACHE_SIZE` (1000 unless overridden). -/
structure CachingMiddleware (σ α : Type) where
  storage : σ
  cache : Option α
  cache_modified_count : Nat
  WRITE_CACHE_SIZE : Nat

/-- `CachingMiddleware.read`: if the cache is `None`, prime it from the
wrapped storage; otherwise return the cache without touching the storage. -/
def CachingMiddleware.read {σ α : Type} (ops : StorageOps σ α)
    (s : CachingMiddleware σ α) : Option α × CachingMiddleware σ α :=
  match s.cache with
  | none =>
      let r := ops.read s.storage
      (r.fst, { s with storage := r.snd, cache := r.fst })
  | some v => (some v, s)

/-- `CachingMiddleware.flush`: if the counter is positive, write the cache
to the wrapped storage and reset the counter. -/
def CachingMiddleware.flush {σ α : Type} (ops : StorageOps σ α)
    (s : CachingMiddleware σ α) : CachingMiddleware σ α :=
  if 0 < s.cache_modified_count then
    { s with storage := ops.write s.cache s.storage, cache_modified_count := 0 }
  else s

/-- `CachingMiddleware.write`: replace the cache, bump the counter, and
flush when the counter has reached `WRITE_CACHE_SIZE`. -/
def CachingMiddleware.write {σ α : Type} (ops : StorageOps σ α) (data : α)
    (s : CachingMiddleware σ α) : CachingMiddleware σ α :=
  let s1 := { s with
    cache := some data,
    cache_modified_count := s.cache_modified_count + 1 }
  if s1.WRITE_CACHE_SIZE ≤ s1.cache_modified_count then s1.flush ops else s1

/-- `CachingMiddleware.close`: flush, then close the wrapped storage. -/
def CachingMiddleware.close {σ α : Type} (ops : StorageOps σ α)
    (s : CachingMiddleware σ α) : CachingMiddleware σ α :=
  let s1 := s.flush ops
  { s1 with storage := ops.close s1.storage }

/-- A sequence of writes through the middleware. -/
def CachingMiddleware.writeAll {σ α : Type} (ops : StorageOps σ α)
    (ws : List α) (s : CachingMiddleware σ α) : CachingMiddleware σ α :=
  ws.foldl (fun acc d => CachingMiddleware.write ops d acc) s

/-- An instrumented wrapped storage: besides its content it records how
often it was read, every write issued to it, and whether it was closed. -/
structure WrappedStorage (α : Type) where
  memory : Option α
  reads : Nat
  writes : List (Option α)
  closed : Bool

def wrappedOps (α : Type) : StorageOps (WrappedStorage α) α where
  read := fun s => (s.memory, { s with reads := s.reads + 1 })
  write := fun d s => { s with memory := d, writes := d :: s.writes }
  close := fun s => { s with closed := true }

/-- The `StorageOps` view of `ExtendedMemoryStorage`, as used when a
`CachingMiddleware` wraps the transactional memory backend. -/
def memoryStorageOps : StorageOps ExtendedMemoryStorage State where
  read := fun s => (s.read, s)
  write := fun d s => { s with memory := d }
  close := fun s => s

/-- The schema store of the `TinyDB` facade: `_schemas` maps a table name
to a schema, itself a dict from field name to a type tag. -/
structure TinyDB where
  schemas : List (String × List (String × String))

/-- `set_schema`: `self._schemas[table_name] = schema`. -/
def TinyDB.set_schema (table_name : String) (schema : List (String × String))
    (db : TinyDB) : TinyDB :=
  { db with schemas := alistSet db.schemas table_name schema }

/-- `validate_document`: look the schema up with default empty mapping, and
check that every schema field occurs as a key of the document. -/
def TinyDB.validate_document (db : TinyDB) (table_name : String)
    (document : List (String × JValue)) : Bool :=
  let schema := (alistLookup db.schemas table_name).getD []
  schema.all (fun f => document.any (fun kv => kv.fst = f.fst))

/-- C1: for every state S current at `begin_transaction` and every sequence
of whole-state writes performed afterwards, `rollback_transaction` makes
`read` return exactly S, on the memory backend (whose snapshot is a copy of
the state) and on the file backend (where `begin` succeeds and the shadow
file drives the rollback). -/
theorem C1_rollback_restores (S : State) (ws : List State)
    (m : ExtendedMemoryStorage) (st : ExtendedJSONStorage) (fs : Files)
    (hm : m.memory = some S)
    (hf : lookupFile fs st.path = some (some S)) :
    (ExtendedMemoryStorage.writeAll ws
        m.begin_transaction).rollback_transaction.read = some S ∧
    ∃ fs1, st.begin_transaction fs = some fs1 ∧
      st.read (st.rollback_transaction (st.writeAll ws fs1)) = some S := by
  have hne := path_ne_transaction_backup_path st
  constructor
  · have hb : (ExtendedMemoryStorage.writeAll ws
        m.begin_transaction).transaction_backup = some S := by
      rw [memory_writeAll_backup]
      simp [ExtendedMemoryStorage.begin_transaction, ExtendedMemoryStorage.read,
        hm]
    simp [ExtendedMemoryStorage.rollback_transaction, hb,
      ExtendedMemoryStorage.read]
  · refine ⟨setFile fs st.transaction_backup_path (some S), ?_, ?_⟩
    · simp [ExtendedJSONStorage.begin_transaction, copyfile, hf]
    · have h1 : lookupFile
          (st.writeAll ws (setFile fs st.transaction_backup_path (some S)))
          st.transaction_backup_path = some (some S) := by
        rw [json_writeAll_lookup_ne st ws _ _ hne]
        exact lookupFile_setFile_self fs _ _
      simp only [ExtendedJSONStorage.rollback_transaction, h1]
      simp only [ExtendedJSONStorage.read,
        lookupFile_removeFile_ne _ _ _ (Ne.symm hne), lookupFile_setFile_self]

def sampleS : State := [("t", JValue.null)]

def sampleWs : List State := [[], [("u", JValue.bool true)]]

def sampleMem : ExtendedMemoryStorage :=
  { memory := some sampleS, transaction_backup := none }

def sampleJson : ExtendedJSONStorage := { path := "db.json" }

def sampleFs : Files := [("db.json", some sampleS)]

theorem C1_rollback_restores_witness :
    sampleMem.memory = some sampleS ∧
    lookupFile sampleFs sampleJson.path = some (some sampleS) ∧
    ((ExtendedMemoryStorage.writeAll sampleWs
        sampleMem.begin_transaction).rollback_transaction.read = some sampleS ∧
     ∃ fs1, sampleJson.begin_transaction sampleFs = some fs1 ∧
       sampleJson.read (sampleJson.rollback_transaction
         (sampleJson.writeAll sampleWs fs1)) = some sampleS) :=
  ⟨rfl, rfl,
    C1_rollback_restores sampleS sampleWs sampleMem sampleJson sampleFs rfl rfl⟩

/-- C4: `begin_transaction(); write(S2); commit_transaction()` leaves
`read() = S2`; commit only discards the snapshot or shadow file and never
touches the current state, on both backends. -/
theorem C4_commit_keeps_written_state (m : ExtendedMemoryStorage) (S2 : State)
    (st : ExtendedJSONStorage) (gs : Files) (c : FileContent)
    (hf : lookupFile gs st.path = some c) :
    (m.begin_transaction.write S2).commit_transaction.read = some S2 ∧
    ∃ gs1, st.begin_transaction gs = some gs1 ∧
      st.read (st.commit_transaction (st.write S2 gs1)) = some S2 := by
  have hne := path_ne_transaction_backup_path st
  constructor
  · simp [ExtendedMemoryStorage.begin_transaction, ExtendedMemoryStorage.write,
      ExtendedMemoryStorage.commit_transaction, ExtendedMemoryStorage.read]
  · refine ⟨setFile gs st.transaction_backup_path c, ?_, ?_⟩
    · simp [ExtendedJSONStorage.begin_transaction, copyfile, hf]
    · have h1 : lookupFile
          (st.write S2 (setFile gs st.transaction_backup_path c))
          st.transaction_backup_path = some c := by
        rw [ExtendedJSONStorage.write, lookupFile_setFile_ne _ _ _ _ hne]
        exact lookupFile_setFile_self gs _ _
      simp only [ExtendedJSONStorage.commit_transaction, h1, Option.isSome_some,
        if_true]
      simp only [ExtendedJSONStorage.read,
        lookupFile_removeFile_ne _ _ _ (Ne.symm hne), ExtendedJSONStorage.write,
        lookupFile_setFile_self]

theorem C4_commit_keeps_written_state_witness :
    lookupFile sampleFs sampleJson.path = some (some sampleS) ∧
    ((sampleMem.begin_transaction.write []).commit_transaction.read = some [] ∧
     ∃ gs1, sampleJson.begin_transaction sampleFs = some gs1 ∧
       sampleJson.read (sampleJson.commit_transaction
         (sampleJson.write [] gs1)) = some []) :=
  ⟨rfl,
    C4_commit_keeps_written_state sampleMem [] sampleJson sampleFs
      (some sampleS) rfl⟩

/-- C10: `validate_document` is `true` for every document when no schema is
stored for the table: the lookup defaults to the empty mapping and the
required-field check over it is vacuous. -/
theorem C10_validate_document_no_schema (db : TinyDB) (t : String)
    (doc : List (String × JValue)) (h : alistLookup db.schemas t = none) :
    db.validate_document t doc = true := by
  simp [TinyDB.validate_document, h]

theorem C10_validate_document_no_schema_witness :
    alistLookup (TinyDB.mk []).schemas "users" = none ∧
    (TinyDB.mk []).validate_document "users" [("name", JValue.str "Alice")]
      = true :=
  ⟨rfl, C10_validate_document_no_schema (TinyDB.mk []) "users"
    [("name", JValue.str "Alice")] rfl⟩

/-- C5: with the state present at `backup(p)` and p an external location
(not the primary file of the file backend), the sequence
`backup(p); write(S3); restore(p)` makes `read` return the state held at
backup time, on the memory backend (JSON round-trip) and the file backend
(byte copy round-trip). -/
theorem C5_backup_restore_roundtrip (S S3 : State) (p : String)
    (m : ExtendedMemoryStorage) (fs : Files)
    (st : ExtendedJSONStorage) (gs : Files)
    (hm : m.memory = some S)
    (hf : lookupFile gs st.path = some (some S))
    (hp : p ≠ st.path) :
    (∃ m1, (m.write S3).restore p (m.backup p fs) = some m1 ∧
      m1.read = some S) ∧
    ∃ gs1 gs2, st.backup p gs = some gs1 ∧
      st.restore p (st.write S3 gs1) = some gs2 ∧ st.read gs2 = some S := by
  constructor
  · refine ⟨(m.write S3).write S, ?_, rfl⟩
    have hb : m.backup p fs = setFile fs p (some S) := by
      simp [ExtendedMemoryStorage.backup, ExtendedMemoryStorage.read, hm]
    rw [hb]
    simp [ExtendedMemoryStorage.restore, lookupFile_setFile_self]
  · refine ⟨setFile gs p (some S),
      setFile (setFile (setFile gs p (some S)) st.path (some S3)) st.path
        (some S), ?_, ?_, ?_⟩
    · simp [ExtendedJSONStorage.backup, copyfile, hf]
    · have h1 : lookupFile (setFile (setFile gs p (some S)) st.path (some S3))
          p = some (some S) := by
        rw [lookupFile_setFile_ne _ _ _ _ (Ne.symm hp)]
        exact lookupFile_setFile_self gs _ _
      simp [ExtendedJSONStorage.restore, copyfile, h1,
        ExtendedJSONStorage.write]
    · simp [ExtendedJSONStorage.read, lookupFile_setFile_self]

theorem C5_backup_restore_roundtrip_witness :
    sampleMem.memory = some sampleS ∧
    lookupFile sampleFs sampleJson.path = some (some sampleS) ∧
    ("b.json" : String) ≠ sampleJson.path ∧
    ((∃ m1, (sampleMem.write []).restore "b.json"
        (sampleMem.backup "b.json" []) = some m1 ∧ m1.read = some sampleS) ∧
     ∃ gs1 gs2, sampleJson.backup "b.json" sampleFs = some gs1 ∧
       sampleJson.restore "b.json" (sampleJson.write [] gs1) = some gs2 ∧
       sampleJson.read gs2 = some sampleS) :=
  ⟨rfl, rfl, by decide,
    C5_backup_restore_roundtrip sampleS [] "b.json" sampleMem [] sampleJson
      sampleFs rfl rfl (by decide)⟩

/-- C3 counterexample: with a transaction already open, a second
`begin_transaction` does not fail: on the memory backend it completes and
replaces the snapshot with the current state, and on the file backend it
returns a filesystem (overwriting the shadow file) rather than an error. -/
theorem C3_counterexample :
    ((ExtendedMemoryStorage.mk (some [("t", JValue.num 2)])
        (some [])).begin_transaction.transaction_backup
      = some [("t", JValue.num 2)]) ∧
    ((ExtendedJSONStorage.mk "db.json").begin_transaction
        [("db.json", some [("t", JValue.num 2)]), ("db.json.bak", some [])]
      = some [("db.json", some [("t", JValue.num 2)]),
              ("db.json.bak", some [("t", JValue.num 2)])]) :=
  ⟨rfl, rfl⟩

/-- C3 amended: calling `begin_transaction` with a transaction already open
raises no error on either backend; it silently replaces the held
snapshot/shadow copy with the current state, so a subsequent rollback
restores the state at the second begin. -/
theorem C3_second_begin_replaces_snapshot (m : ExtendedMemoryStorage)
    (B C : State) (st : ExtendedJSONStorage) (gs : Files)
    (c0 c1 : FileContent)
    (_hb : m.transaction_backup = some B) (hm : m.memory = some C)
    (_hf0 : lookupFile gs st.transaction_backup_path = some c0)
    (hf1 : lookupFile gs st.path = some c1) :
    (m.begin_transaction.transaction_backup = some C ∧
     m.begin_transaction.rollback_transaction.read = some C) ∧
    ∃ gs1, st.begin_transaction gs = some gs1 ∧
      lookupFile gs1 st.transaction_backup_path = some c1 := by
  constructor
  · constructor
    · simp [ExtendedMemoryStorage.begin_transaction,
        ExtendedMemoryStorage.read, hm]
    · simp [ExtendedMemoryStorage.begin_transaction,
        ExtendedMemoryStorage.rollback_transaction,
        ExtendedMemoryStorage.read, hm]
  · refine ⟨setFile gs st.transaction_backup_path c1, ?_, ?_⟩
    · simp [ExtendedJSONStorage.begin_transaction, copyfile, hf1]
    · exact lookupFile_setFile_self gs _ _

theorem C3_second_begin_replaces_snapshot_witness :
    (ExtendedMemoryStorage.mk (some sampleS) (some [])).transaction_backup
      = some [] ∧
    (ExtendedMemoryStorage.mk (some sampleS) (some [])).memory
      = some sampleS ∧
    lookupFile [("db.json", some sampleS), ("db.json.bak", some [])]
      sampleJson.transaction_backup_path = some (some []) ∧
    lookupFile [("db.json", some sampleS), ("db.json.bak", some [])]
      sampleJson.path = some (some sampleS) ∧
    (((ExtendedMemoryStorage.mk (some sampleS)
          (some [])).begin_transaction.transaction_backup = some sampleS ∧
      (ExtendedMemoryStorage.mk (some sampleS)
          (some [])).begin_transaction.rollback_transaction.read
        = some sampleS) ∧
     ∃ gs1, sampleJson.begin_transaction
         [("db.json", some sampleS), ("db.json.bak", some [])] = some gs1 ∧
       lookupFile gs1 sampleJson.transaction_backup_path
         = some (some sampleS)) :=
  ⟨rfl, rfl, rfl, rfl,
    C3_second_begin_replaces_snapshot (ExtendedMemoryStorage.mk (some sampleS)
      (some [])) [] sampleS sampleJson
      [("db.json", some sampleS), ("db.json.bak", some [])]
      (some []) (some sampleS) rfl rfl rfl rfl⟩

/-- C9 counterexample: on a memory backend whose state is absent,
`backup` raises no error and leaves the filesystem unchanged, producing no
backup artifact at the destination. -/
theorem C9_counterexample :
    ExtendedMemoryStorage.backup "backup.json"
      (ExtendedMemoryStorage.mk none none) [] = ([] : Files) ∧
    lookupFile (ExtendedMemoryStorage.backup "backup.json"
      (ExtendedMemoryStorage.mk none none) []) "backup.json" = none :=
  ⟨rfl, rfl⟩

/-- C9 amended: `backup(path)` on the memory backend is a silent no-op when
the current state is absent (no error, no file written); when the state is
present it writes the serialized state to `path`. -/
theorem C9_backup_absent_is_noop (m : ExtendedMemoryStorage) (p : String)
    (fs : Files) :
    (m.memory = none → m.backup p fs = fs) ∧
    (∀ S, m.memory = some S → m.backup p fs = setFile fs p (some S)) := by
  constructor
  · intro h
    simp [ExtendedMemoryStorage.backup, ExtendedMemoryStorage.read, h]
  · intro S h
    simp [ExtendedMemoryStorage.backup, ExtendedMemoryStorage.read, h]

theorem C9_backup_absent_is_noop_witness :
    (ExtendedMemoryStorage.mk none none).memory = none ∧
    (ExtendedMemoryStorage.mk none none).backup "b.json" [] = [] ∧
    (ExtendedMemoryStorage.mk (some sampleS) none).backup "b.json" []
      = setFile [] "b.json" (some sampleS) :=
  ⟨rfl,
    (C9_backup_absent_is_noop (ExtendedMemoryStorage.mk none none)
      "b.json" []).1 rfl,
    (C9_backup_absent_is_noop (ExtendedMemoryStorage.mk (some sampleS) none)
      "b.json" []).2 sampleS rfl⟩

/-- C6: once the cache is primed, `read` returns the buffer and leaves the
middleware (hence the wrapped storage) untouched, for any wrapped storage;
and a `write(X)` below the flush threshold leaves the wrapped storage on
its pre-write value while a subsequent `read` returns X. -/
theorem C6_cache_primed {σ α : Type} (ops : StorageOps σ α)
    (s : CachingMiddleware σ α) (v : α) (h : s.cache = some v) :
    CachingMiddleware.read ops s = (some v, s) ∧
    (∀ x : α, (CachingMiddleware.write ops x s).cache = some x) ∧
    (∀ x : α, s.cache_modified_count + 1 < s.WRITE_CACHE_SIZE →
      (CachingMiddleware.write ops x s).storage = s.storage ∧
      CachingMiddleware.read ops (CachingMiddleware.write ops x s)
        = (some x, CachingMiddleware.write ops x s)) := by
  refine ⟨?_, ?_, ?_⟩
  · simp [CachingMiddleware.read, h]
  · intro x
    by_cases hc : s.WRITE_CACHE_SIZE ≤ s.cache_modified_count + 1 <;>
      simp [CachingMiddleware.write, CachingMiddleware.flush, hc]
  · intro x hlt
    have hif : ¬ s.WRITE_CACHE_SIZE ≤ s.cache_modified_count + 1 := by omega
    constructor
    · simp [CachingMiddleware.write, hif]
    · simp [CachingMiddleware.write, hif, CachingMiddleware.read]

def sampleCM : CachingMiddleware (WrappedStorage Nat) Nat :=
  { storage := { memory := some 0, reads := 0, writes := [], closed := false },
    cache := some 5, cache_modified_count := 1, WRITE_CACHE_SIZE := 1000 }

theorem C6_cache_primed_witness :
    sampleCM.cache = some 5 ∧
    CachingMiddleware.read (wrappedOps Nat) sampleCM = (some 5, sampleCM) ∧
    (CachingMiddleware.write (wrappedOps Nat) 7 sampleCM).cache = some 7 ∧
    sampleCM.cache_modified_count + 1 < sampleCM.WRITE_CACHE_SIZE ∧
    (CachingMiddleware.write (wrappedOps Nat) 7 sampleCM).storage
      = sampleCM.storage :=
  ⟨rfl, (C6_cache_primed (wrappedOps Nat) sampleCM 5 rfl).1,
    (C6_cache_primed (wrappedOps Nat) sampleCM 5 rfl).2.1 7, by decide,
    ((C6_cache_primed (wrappedOps Nat) sampleCM 5 rfl).2.2 7 (by decide)).1⟩

theorem caching_writeAll_no_flush {σ α : Type} (ops : StorageOps σ α)
    (ws : List α) (s : CachingMiddleware σ α)
    (h : s.cache_modified_count + ws.length < s.WRITE_CACHE_SIZE) :
    (CachingMiddleware.writeAll ops ws s).storage = s.storage ∧
    (CachingMiddleware.writeAll ops ws s).cache_modified_count
      = s.cache_modified_count + ws.length ∧
    (CachingMiddleware.writeAll ops ws s).WRITE_CACHE_SIZE
      = s.WRITE_CACHE_SIZE := by
  induction ws generalizing s with
  | nil => simp [CachingMiddleware.writeAll]
  | cons d rest ih =>
      simp only [List.length_cons] at h
      have hif : ¬ s.WRITE_CACHE_SIZE ≤ s.cache_modified_count + 1 := by omega
      have hs1 : CachingMiddleware.write ops d s
          = { s with
                cache := some d
                cache_modified_count := s.cache_modified_count + 1 } := by
        simp [CachingMiddleware.write, hif]
      have hstep : CachingMiddleware.writeAll ops (d :: rest) s
          = CachingMiddleware.writeAll ops rest
              (CachingMiddleware.write ops d s) := rfl
      rw [hstep, hs1]
      obtain ⟨h1, h2, h3⟩ := ih
        { s with
            cache := some d
            cache_modified_count := s.cache_modified_count + 1 }
        (show s.cache_modified_count + 1 + rest.length < s.WRITE_CACHE_SIZE by
          omega)
      refine ⟨h1, ?_, h3⟩
      rw [h2]
      simp only [List.length_cons]
      omega

/-- C7: with the counter at 0 and threshold `ws.length + 1`, the first
`ws.length` writes leave the wrapped storage untouched, and the write that
reaches the threshold flushes: the wrapped storage then holds the last
written value, exactly one write was issued to it, and the counter is reset
to 0. -/
theorem C7_threshold_flush {α : Type} (ws : List α) (x : α)
    (s : CachingMiddleware (WrappedStorage α) α)
    (h0 : s.cache_modified_count = 0)
    (hT : s.WRITE_CACHE_SIZE = ws.length + 1) :
    (CachingMiddleware.writeAll (wrappedOps α) (ws ++ [x]) s).storage.memory
      = some x ∧
    (CachingMiddleware.writeAll (wrappedOps α) (ws ++ [x]) s).storage.writes
      = some x :: s.storage.writes ∧
    (CachingMiddleware.writeAll (wrappedOps α)
        (ws ++ [x]) s).cache_modified_count = 0 ∧
    (CachingMiddleware.writeAll (wrappedOps α) ws s).storage = s.storage := by
  obtain ⟨h1, h2, h3⟩ := caching_writeAll_no_flush (wrappedOps α) ws s
    (by omega)
  have happ : CachingMiddleware.writeAll (wrappedOps α) (ws ++ [x]) s
      = CachingMiddleware.write (wrappedOps α) x
          (CachingMiddleware.writeAll (wrappedOps α) ws s) := by
    simp [CachingMiddleware.writeAll, List.foldl_append]
  have hc : (CachingMiddleware.writeAll
      (wrappedOps α) ws s).cache_modified_count = ws.length := by
    rw [h2, h0, Nat.zero_add]
  have hsz : (CachingMiddleware.writeAll
      (wrappedOps α) ws s).WRITE_CACHE_SIZE = ws.length + 1 := by
    rw [h3, hT]
  have hw : CachingMiddleware.write (wrappedOps α) x
      (CachingMiddleware.writeAll (wrappedOps α) ws s)
      = { storage := (wrappedOps α).write (some x)
            (CachingMiddleware.writeAll (wrappedOps α) ws s).storage
          cache := some x
          cache_modified_count := 0
          WRITE_CACHE_SIZE := (CachingMiddleware.writeAll
            (wrappedOps α) ws s).WRITE_CACHE_SIZE } := by
    simp [CachingMiddleware.write, CachingMiddleware.flush, hc, hsz]
  rw [happ, hw]
  refine ⟨?_, ?_, rfl, h1⟩
  · simp [wrappedOps]
  · rw [h1]
    rfl

def sampleThresholdCM : CachingMiddleware (WrappedStorage Nat) Nat :=
  { storage := { memory := some 0, reads := 0, writes := [], closed := false },
    cache := none, cache_modified_count := 0, WRITE_CACHE_SIZE := 3 }

theorem C7_threshold_flush_witness :
    sampleThresholdCM.cache_modified_count = 0 ∧
    sampleThresholdCM.WRITE_CACHE_SIZE = [1, 2].length + 1 ∧
    ((CachingMiddleware.writeAll (wrappedOps Nat)
        ([1, 2] ++ [3]) sampleThresholdCM).storage.memory = some 3 ∧
     (CachingMiddleware.writeAll (wrappedOps Nat)
        ([1, 2] ++ [3]) sampleThresholdCM).storage.writes
       = some 3 :: sampleThresholdCM.storage.writes ∧
     (CachingMiddleware.writeAll (wrappedOps Nat)
        ([1, 2] ++ [3]) sampleThresholdCM).cache_modified_count = 0 ∧
     (CachingMiddleware.writeAll (wrappedOps Nat)
        [1, 2] sampleThresholdCM).storage = sampleThresholdCM.storage) :=
  ⟨rfl, rfl, C7_threshold_flush [1, 2] 3 sampleThresholdCM rfl rfl⟩

/-- C8: `close` flushes the pending buffer when the counter is positive (the
buffered value becomes visible in the wrapped storage, one write issued)
and issues no write at all when the counter is 0; in both cases the wrapped
storage is closed. -/
theorem C8_close_flushes {α : Type}
    (s : CachingMiddleware (WrappedStorage α) α) (v : α) :
    (s.cache = some v → 0 < s.cache_modified_count →
      ((CachingMiddleware.close (wrappedOps α) s).storage.memory = some v ∧
       (CachingMiddleware.close (wrappedOps α) s).storage.writes
         = some v :: s.storage.writes ∧
       (CachingMiddleware.close (wrappedOps α) s).storage.closed = true)) ∧
    (s.cache_modified_count = 0 →
      ((CachingMiddleware.close (wrappedOps α) s).storage.memory
         = s.storage.memory ∧
       (CachingMiddleware.close (wrappedOps α) s).storage.writes
         = s.storage.writes ∧
       (CachingMiddleware.close (wrappedOps α) s).storage.closed = true)) := by
  constructor
  · intro hc hcount
    simp [CachingMiddleware.close, CachingMiddleware.flush, hcount, hc,
      wrappedOps]
  · intro hcount
    simp [CachingMiddleware.close, CachingMiddleware.flush, hcount, wrappedOps]

def samplePendingCM : CachingMiddleware (WrappedStorage Nat) Nat :=
  { storage := { memory := some 0, reads := 0, writes := [], closed := false },
    cache := some 5, cache_modified_count := 2, WRITE_CACHE_SIZE := 1000 }

def sampleCleanCM : CachingMiddleware (WrappedStorage Nat) Nat :=
  { storage := { memory := some 0, reads := 0, writes := [], closed := false },
    cache := some 5, cache_modified_count := 0, WRITE_CACHE_SIZE := 1000 }

theorem C8_close_flushes_witness :
    samplePendingCM.cache = some 5 ∧
    0 < samplePendingCM.cache_modified_count ∧
    (CachingMiddleware.close (wrappedOps Nat) samplePendingCM).storage.memory
      = some 5 ∧
    sampleCleanCM.cache_modified_count = 0 ∧
    (CachingMiddleware.close (wrappedOps Nat) sampleCleanCM).storage.writes
      = sampleCleanCM.storage.writes :=
  ⟨rfl, by decide,
    ((C8_close_flushes samplePendingCM 5).1 rfl (by decide)).1, rfl,
    ((C8_close_flushes sampleCleanCM 5).2 rfl).2.1⟩

def staleA : State :=
  [("_default", JValue.obj [("1", JValue.obj [("name", JValue.str "Alice")])])]

def staleB : State := [("_default", JValue.obj [])]

def staleCachedDB : CachingMiddleware ExtendedMemoryStorage State :=
  { storage := { memory := some staleA, transaction_backup := none }
    cache := none
    cache_modified_count := 0
    WRITE_CACHE_SIZE := 1000 }

/-- A `CachingMiddleware` over the transactional memory backend after:
priming `read`, one buffered `write` of `staleB` (below the threshold, so
the wrapped storage is untouched), then `begin_transaction` and
`rollback_transaction` applied to the wrapped storage directly — the only
possibility, since the middleware defines no transaction methods. -/
def staleAfterRollback : CachingMiddleware ExtendedMemoryStorage State :=
  let primed := (CachingMiddleware.read memoryStorageOps staleCachedDB).snd
  let buffered := CachingMiddleware.write memoryStorageOps staleB primed
  { buffered with
      storage := buffered.storage.begin_transaction.rollback_transaction }

/-- C2: the caching middleware exposes no transaction pass-through and
nothing invalidates its buffer on rollback: after a rollback on the wrapped
storage, `read` through the middleware still returns the stale buffered
pre-rollback state `staleB`, while the wrapped storage holds the
rolled-back state `staleA`. -/
theorem C2_stale_cache_after_rollback :
    (CachingMiddleware.read memoryStorageOps staleAfterRollback).fst
      = some staleB ∧
    staleAfterRollback.storage.memory = some staleA ∧
    staleAfterRollback.cache = some staleB :=
  ⟨rfl, rfl, rfl⟩
